import Mathlib

/-!
# Verification of the chat client (`src/app/chat/page.tsx`)

Shallow embedding of the chat page's state and handlers:

* `Message`, `ClientState` mirror the `Message` interface and the React
  state hooks (`messages`, `input`, `isLoading`, `isTyping`).
* `sendMessageStart` is the synchronous prefix of the `sendMessage` handler
  (guard, optimistic user append, input clear, loading flags, request build);
* `sendMessageFinish` is the continuation run when the `axios.post` promise
  settles (`then`-part, `catch`-part, and the `finally` that clears
  `isLoading`);
* `sendMessage` composes the two for one completed submission;
* `startNewChat` and `setInput` are the remaining state operations.

JavaScript's `Date.now()` is modelled by an explicit clock argument (`now`),
and `input.trim()` by the structural `jsTrim` below.  The axios promise
either resolves with a parsed body (any 2xx status) or rejects (network
error or non-2xx status); this is the `TransportResult` type.
-/

inductive Role where
  | user
  | assistant
deriving DecidableEq, Repr

structure Message where
  id : String
  content : String
  role : Role
  timestamp : Nat
deriving DecidableEq, Repr

structure ChatRequest where
  message : String
  agent_type : String
deriving DecidableEq, Repr

structure ChatResponse where
  response : String
  agent_name : String
  model : String
  success : Bool
  error : Option String
deriving DecidableEq, Repr

/-- Outcome of the `axios.post` call as observed by the client: the promise
resolves with a parsed body for any 2xx status (the `success` field of the
body plays no role in this distinction), and rejects on a network error or a
non-2xx status. -/
inductive TransportResult where
  | resolved (data : ChatResponse)
  | rejected
deriving DecidableEq, Repr

structure ClientState where
  messages : List Message
  input : String
  isLoading : Bool
  isTyping : Bool
deriving DecidableEq, Repr

/-- The initial React state: `useState<Message[]>([])`, `useState("")`,
`useState(false)`, `useState(false)`. -/
def initialState : ClientState :=
  { messages := [], input := "", isLoading := false, isTyping := false }

/-- The fixed fallback text appended in the `catch` branch. -/
def fallbackContent : String :=
  "Sorry, I'm having trouble connecting. Please try again later."

/-- JavaScript's `String.prototype.trim`: remove whitespace from both ends.
Written structurally over the character list so it is kernel-executable. -/
def jsTrim (s : String) : String :=
  ⟨((s.data.dropWhile Char.isWhitespace).reverse.dropWhile Char.isWhitespace).reverse⟩

/-- Synchronous prefix of `sendMessage`: the guard
`if (!input.trim() || isLoading) return`, the optimistic user append
(`id: Date.now().toString(), content: input`), `setInput("")`,
`setIsLoading(true)`, `setIsTyping(true)`, and the request body
`{ message: input, agent_type: "basic" }` passed to `axios.post`.
Returns the new state and the issued request (`none` when the guard
returned early and no network call was made). -/
def sendMessageStart (s : ClientState) (now : Nat) :
    ClientState × Option ChatRequest :=
  if jsTrim s.input = "" ∨ s.isLoading = true then (s, none)
  else
    let userMessage : Message :=
      { id := Nat.repr now
        content := s.input
        role := Role.user
        timestamp := now }
    ({ s with
        messages := s.messages ++ [userMessage]
        input := ""
        isLoading := true
        isTyping := true },
      some { message := s.input, agent_type := "basic" })

/-- Continuation of `sendMessage` once the `axios.post` promise settles.
On resolution it appends the bot message
(`id: (Date.now() + 1).toString(), content: response.data.response`);
on rejection the `catch` branch appends the fixed fallback message with the
same id scheme.  Both paths run `setIsTyping(false)`, and the `finally`
clause runs `setIsLoading(false)`. -/
def sendMessageFinish (s : ClientState) (r : TransportResult) (now : Nat) :
    ClientState :=
  match r with
  | TransportResult.resolved data =>
      let botMessage : Message :=
        { id := Nat.repr (now + 1)
          content := data.response
          role := Role.assistant
          timestamp := now }
      { s with
          isTyping := false
          messages := s.messages ++ [botMessage]
          isLoading := false }
  | TransportResult.rejected =>
      let errorMessage : Message :=
        { id := Nat.repr (now + 1)
          content := fallbackContent
          role := Role.assistant
          timestamp := now }
      { s with
          isTyping := false
          messages := s.messages ++ [errorMessage]
          isLoading := false }

/-- One completed submission: the synchronous prefix at clock `tSubmit`;
when a request was issued, the continuation at clock `tDone` with transport
outcome `r`. -/
def sendMessage (s : ClientState) (tSubmit : Nat) (r : TransportResult)
    (tDone : Nat) : ClientState :=
  match sendMessageStart s tSubmit with
  | (s1, none) => s1
  | (s1, some _) => sendMessageFinish s1 r tDone

/-- The `startNewChat` handler: `setMessages([])`. -/
def startNewChat (s : ClientState) : ClientState :=
  { s with messages := [] }

/-- The input field's `onChange` handler: `setInput(e.target.value)`. -/
def setInput (s : ClientState) (v : String) : ClientState :=
  { s with input := v }

/-- The externally visible events of one client session.  `submit` and
`response` carry the `Date.now()` reading at the moment the handler runs. -/
inductive ClientEvent where
  | submit (now : Nat)
  | response (r : TransportResult) (now : Nat)
  | newChat
  | edit (v : String)
deriving DecidableEq, Repr

/-- One step of the client.  A `response` event is the settling of the
promise of an in-flight request, so it only has an effect while
`isLoading` is set. -/
def stepClient (s : ClientState) (e : ClientEvent) : ClientState :=
  match e with
  | ClientEvent.submit now => (sendMessageStart s now).1
  | ClientEvent.response r now =>
      if s.isLoading then sendMessageFinish s r now else s
  | ClientEvent.newChat => startNewChat s
  | ClientEvent.edit v => setInput s v

/-- Run a sequence of client events from a state. -/
def runClient (s : ClientState) : List ClientEvent → ClientState
  | [] => s
  | e :: es => runClient (stepClient s e) es

/-! ## Decimal reading of message ids

Message ids are produced by `Date.now().toString()`, i.e. `Nat.repr` of the
clock value.  To state order properties of ids we read an id string back as
a decimal numeral. -/

/-- One step of reading a decimal numeral, most significant digit first. -/
def digitStep (n : Nat) (c : Char) : Nat := n * 10 + (c.toNat - 48)

/-- The numeric value of a list of decimal digit characters. -/
def decimalVal (l : List Char) : Nat := l.foldl digitStep 0

/-- The numeric value of a message id, read as a decimal numeral. -/
def idVal (m : Message) : Nat := decimalVal m.id.data

/-- `shiftAppend a n` is `a` shifted left by the number of decimal digits of
`n`, plus `n`: the value of reading the digits of `n` after having already
read a prefix of value `a`. -/
def shiftAppend (a n : Nat) : Nat :=
  if h : n < 10 then a * 10 + n
  else shiftAppend a (n / 10) * 10 + n % 10
termination_by n
decreasing_by
  exact Nat.div_lt_self (by omega) (by omega)

/-- Clock discipline under which ids cannot collide: each bound is a strict
upper bound on all ids produced so far; a submit at clock `now` needs
`bound ≤ now`, a response at clock `now` (whose bot id is `now + 1`) needs
`bound ≤ now + 1`. -/
def wellSpaced : Nat → List ClientEvent → Bool
  | _, [] => true
  | b, ClientEvent.submit now :: es =>
      decide (b ≤ now) && wellSpaced (now + 1) es
  | b, ClientEvent.response _ now :: es =>
      decide (b ≤ now + 1) && wellSpaced (now + 2) es
  | b, ClientEvent.newChat :: es => wellSpaced b es
  | b, ClientEvent.edit _ :: es => wellSpaced b es

/-- The strict upper bound on ids after running a well-spaced trace. -/
def finalBound : Nat → List ClientEvent → Nat
  | b, [] => b
  | _, ClientEvent.submit now :: es => finalBound (now + 1) es
  | _, ClientEvent.response _ now :: es => finalBound (now + 2) es
  | b, ClientEvent.newChat :: es => finalBound b es
  | b, ClientEvent.edit _ :: es => finalBound b es

/-- All ids in a transcript read below `b`. -/
def idsBelow (ms : List Message) (b : Nat) : Prop :=
  ∀ m ∈ ms, idVal m < b

/-- The content of the assistant message appended when the promise settles:
the body's `response` field on resolution, the fallback on rejection. -/
def finishContent : TransportResult → String
  | TransportResult.resolved data => data.response
  | TransportResult.rejected => fallbackContent

/-! ## Round trip: decimal reading of `Nat.repr` -/

theorem digitChar_toNat (d : Nat) (h : d < 10) :
    (Nat.digitChar d).toNat = 48 + d := by
  interval_cases d <;> decide

theorem toDigitsCore_foldl (fuel : Nat) :
    ∀ (n : Nat) (acc : List Char) (a : Nat), n < fuel →
      (Nat.toDigitsCore 10 fuel n acc).foldl digitStep a =
        acc.foldl digitStep (shiftAppend a n) := by
  induction fuel with
  | zero => intro n acc a h; omega
  | succ fuel ih =>
    intro n acc a h
    rw [Nat.toDigitsCore]
    by_cases h10 : n / 10 = 0
    · rw [if_pos h10]
      rw [List.foldl_cons]
      rw [shiftAppend]
      have hn : n < 10 := by omega
      rw [dif_pos hn]
      have : digitStep a (Nat.digitChar (n % 10)) = a * 10 + n := by
        unfold digitStep
        rw [digitChar_toNat (n % 10) (by omega)]
        omega
      rw [this]
    · rw [if_neg h10]
      have hlt : n / 10 < fuel := by
        have h1 : n / 10 < n := Nat.div_lt_self (by omega) (by omega)
        omega
      rw [ih (n / 10) (Nat.digitChar (n % 10) :: acc) a hlt]
      rw [List.foldl_cons]
      have hn : ¬ n < 10 := by omega
      have hstep : digitStep (shiftAppend a (n / 10)) (Nat.digitChar (n % 10)) =
          shiftAppend a (n / 10) * 10 + n % 10 := by
        unfold digitStep
        rw [digitChar_toNat (n % 10) (by omega)]
        omega
      rw [hstep]
      conv_rhs => rw [shiftAppend, dif_neg hn]

theorem shiftAppend_zero (n : Nat) : shiftAppend 0 n = n := by
  induction n using Nat.strong_induction_on with
  | _ n ih =>
    rw [shiftAppend]
    by_cases h : n < 10
    · rw [dif_pos h]; omega
    · rw [dif_neg h]
      rw [ih (n / 10) (Nat.div_lt_self (by omega) (by omega))]
      omega

/-- Reading back the decimal representation of `n` yields `n`. -/
theorem decimalVal_repr (n : Nat) : decimalVal (Nat.repr n).data = n := by
  have h := toDigitsCore_foldl (n + 1) n [] 0 (Nat.lt_succ_self n)
  simpa [decimalVal, Nat.repr, Nat.toDigits, List.asString,
    shiftAppend_zero] using h

/-! ## Transcript id ordering along well-spaced traces -/

theorem chain_append_one (ms : List Message) (m : Message) (b : Nat)
    (hb : idsBelow ms b) (hc : (ms.map idVal).Chain' (· < ·))
    (hm : b ≤ idVal m) :
    ((ms ++ [m]).map idVal).Chain' (· < ·) ∧
      idsBelow (ms ++ [m]) (idVal m + 1) := by
  constructor
  · rw [List.map_append]
    rw [List.chain'_append]
    refine ⟨hc, List.chain'_singleton _, ?_⟩
    intro x hx y hy
    simp only [List.map_cons, List.map_nil, List.head?_cons,
      Option.mem_def, Option.some.injEq] at hy
    subst hy
    have hxmem : x ∈ ms.map idVal := List.mem_of_mem_getLast? hx
    obtain ⟨m', hm', rfl⟩ := List.mem_map.mp hxmem
    exact lt_of_lt_of_le (hb m' hm') hm
  · intro x hx
    rcases List.mem_append.mp hx with h | h
    · exact lt_of_lt_of_le (hb x h) (by omega)
    · simp only [List.mem_singleton] at h
      subst h
      omega

theorem runClient_ordered :
    ∀ (es : List ClientEvent) (s : ClientState) (b : Nat),
      wellSpaced b es = true → idsBelow s.messages b →
      (s.messages.map idVal).Chain' (· < ·) →
      ((runClient s es).messages.map idVal).Chain' (· < ·) ∧
        idsBelow (runClient s es).messages (finalBound b es) := by
  intro es
  induction es with
  | nil =>
    intro s b _ hb hc
    exact ⟨hc, hb⟩
  | cons e es ih =>
    intro s b hw hb hc
    cases e with
    | submit now =>
      rw [wellSpaced, Bool.and_eq_true, decide_eq_true_eq] at hw
      obtain ⟨hbn, hw'⟩ := hw
      rw [runClient, finalBound]
      by_cases hguard : jsTrim s.input = "" ∨ s.isLoading = true
      · have hstep : stepClient s (ClientEvent.submit now) = s := by
          simp [stepClient, sendMessageStart, hguard]
        rw [hstep]
        exact ih s (now + 1) hw'
          (fun m hm => lt_of_lt_of_le (hb m hm) (by omega)) hc
      · have hstep : stepClient s (ClientEvent.submit now) =
            { s with
                messages := s.messages ++
                  [{ id := Nat.repr now, content := s.input,
                     role := Role.user, timestamp := now }]
                input := ""
                isLoading := true
                isTyping := true } := by
          simp [stepClient, sendMessageStart, hguard]
        rw [hstep]
        have hid : idVal { id := Nat.repr now, content := s.input, role := Role.user, timestamp := now } = now := by
          unfold idVal
          exact decimalVal_repr now
        have happ := chain_append_one s.messages
          { id := Nat.repr now, content := s.input, role := Role.user, timestamp := now }
          b hb hc (by omega)
        rw [hid] at happ
        exact ih _ (now + 1) hw' happ.2 happ.1
    | response r now =>
      rw [wellSpaced, Bool.and_eq_true, decide_eq_true_eq] at hw
      obtain ⟨hbn, hw'⟩ := hw
      rw [runClient, finalBound]
      by_cases hload : s.isLoading = true
      · have hmsgs : (stepClient s (ClientEvent.response r now)).messages =
            s.messages ++
              [{ id := Nat.repr (now + 1), content := finishContent r, role := Role.assistant, timestamp := now }] := by
          cases r <;> simp [stepClient, sendMessageFinish, hload, finishContent]
        have hid : idVal { id := Nat.repr (now + 1), content := finishContent r, role := Role.assistant, timestamp := now } = now + 1 := by
          unfold idVal
          exact decimalVal_repr (now + 1)
        have happ := chain_append_one s.messages _ b hb hc
          (le_of_le_of_eq hbn hid.symm)
        rw [hid] at happ
        have := ih (stepClient s (ClientEvent.response r now)) (now + 2) hw'
          (by rw [hmsgs]; exact happ.2) (by rw [hmsgs]; exact happ.1)
        exact this
      · have hstep : stepClient s (ClientEvent.response r now) = s := by
          simp [stepClient, hload]
        rw [hstep]
        exact ih s (now + 2) hw'
          (fun m hm => lt_of_lt_of_le (hb m hm) (by omega)) hc
    | newChat =>
      rw [wellSpaced] at hw
      rw [runClient, finalBound]
      have hstep : (stepClient s ClientEvent.newChat).messages = [] := by
        simp [stepClient, startNewChat]
      refine ih _ b hw ?_ ?_
      · rw [hstep]; intro m hm; simp at hm
      · rw [hstep]; simp
    | edit v =>
      rw [wellSpaced] at hw
      rw [runClient, finalBound]
      have hstep : (stepClient s (ClientEvent.edit v)).messages =
          s.messages := by
        simp [stepClient, setInput]
      refine ih _ b hw ?_ ?_
      · rw [hstep]; exact hb
      · rw [hstep]; exact hc

/-! ## Concrete states and wire data used by witnesses and counterexamples -/

/-- An idle state with a pending non-blank input, as after typing `hello`. -/
def demoState : ClientState :=
  { messages := [], input := "hello", isLoading := false, isTyping := false }

/-- A state with a request in flight. -/
def busyState : ClientState :=
  { messages := [], input := "hello", isLoading := true, isTyping := true }

/-- A state whose input is whitespace only. -/
def blankState : ClientState :=
  { messages := [], input := "   ", isLoading := false, isTyping := false }

/-- A state whose input has leading and trailing whitespace. -/
def paddedState : ClientState :=
  { messages := [], input := "  hi  ", isLoading := false, isTyping := false }

/-- A failure envelope as produced by the endpoint (`success=false`,
delivered with a 2xx status). -/
def failEnvelope : ChatResponse :=
  { response := "", agent_name := "Basic Agent", model := "gemini-2.5-flash",
    success := false, error := some "Gemini API error" }

/-- A success envelope. -/
def okEnvelope : ChatResponse :=
  { response := "Hello!", agent_name := "Basic Agent",
    model := "gemini-2.5-flash", success := true, error := none }

/-! ## Claims -/

/-- Claim C4: submitting a non-blank input while idle appends exactly one
user-role message (synchronously, before any response), clears the input
field, and enters the loading state. -/
theorem C4_submit_appends_user (s : ClientState) (now : Nat)
    (h1 : ¬ jsTrim s.input = "") (h2 : s.isLoading = false) :
    (sendMessageStart s now).1.messages =
      s.messages ++
        [{ id := Nat.repr now, content := s.input, role := Role.user, timestamp := now }] ∧
    (sendMessageStart s now).1.input = "" ∧
    (sendMessageStart s now).1.isLoading = true := by
  simp [sendMessageStart, h1, h2]

theorem C4_witness :
    (¬ jsTrim demoState.input = "") ∧ demoState.isLoading = false ∧
      ((sendMessageStart demoState 7).1.messages =
        demoState.messages ++
          [{ id := Nat.repr 7, content := demoState.input, role := Role.user, timestamp := 7 }] ∧
      (sendMessageStart demoState 7).1.input = "" ∧
      (sendMessageStart demoState 7).1.isLoading = true) :=
  ⟨by decide, rfl, C4_submit_appends_user demoState 7 (by decide) rfl⟩

/-- Claim C5: submitting while a request is outstanding (`isLoading`) leaves
the state unchanged and issues no request. -/
theorem C5_busy_submit_noop (s : ClientState) (now : Nat)
    (h : s.isLoading = true) :
    sendMessageStart s now = (s, none) := by
  simp [sendMessageStart, h]

theorem C5_witness :
    busyState.isLoading = true ∧ sendMessageStart busyState 3 = (busyState, none) :=
  ⟨rfl, C5_busy_submit_noop busyState 3 rfl⟩

/-- Claim C6: submitting an input that is empty after trimming leaves the
state unchanged and issues no request. -/
theorem C6_blank_submit_noop (s : ClientState) (now : Nat)
    (h : jsTrim s.input = "") :
    sendMessageStart s now = (s, none) := by
  simp [sendMessageStart, h]

theorem C6_witness :
    jsTrim blankState.input = "" ∧ sendMessageStart blankState 3 = (blankState, none) :=
  ⟨by decide, C6_blank_submit_noop blankState 3 (by decide)⟩

/-- Claim C7: `startNewChat` clears the transcript to the empty sequence
for every prior state. -/
theorem C7_newChat_clears (s : ClientState) : (startNewChat s).messages = [] :=
  rfl

/-- Claim C8: every client operation either appends messages at the end of
the transcript or clears it entirely; no existing entry is mutated,
removed individually, or reordered. -/
theorem C8_append_only (s : ClientState) (e : ClientEvent) :
    (stepClient s e).messages = [] ∨
      ∃ l, (stepClient s e).messages = s.messages ++ l := by
  cases e with
  | submit now =>
    by_cases h : jsTrim s.input = "" ∨ s.isLoading = true
    · right
      exact ⟨[], by simp [stepClient, sendMessageStart, h]⟩
    · right
      exact ⟨[{ id := Nat.repr now, content := s.input, role := Role.user, timestamp := now }],
        by simp [stepClient, sendMessageStart, h]⟩
  | response r now =>
    by_cases h : s.isLoading = true
    · right
      refine ⟨[{ id := Nat.repr (now + 1), content := finishContent r, role := Role.assistant, timestamp := now }], ?_⟩
      cases r <;> simp [stepClient, sendMessageFinish, finishContent, h]
    · right
      exact ⟨[], by simp [stepClient, h]⟩
  | newChat => left; rfl
  | edit v =>
    right
    exact ⟨[], by simp [stepClient, setInput]⟩

/-- Claim C9: every request the client issues carries
`agent_type = "basic"`. -/
theorem C9_requests_basic (s : ClientState) (now : Nat) (req : ChatRequest)
    (h : (sendMessageStart s now).2 = some req) :
    req.agent_type = "basic" := by
  by_cases hg : jsTrim s.input = "" ∨ s.isLoading = true
  · simp [sendMessageStart, hg] at h
  · simp [sendMessageStart, hg] at h
    rw [← h]

theorem C9_witness :
    (sendMessageStart demoState 2).2 = some { message := "hello", agent_type := "basic" } ∧
      ChatRequest.agent_type { message := "hello", agent_type := "basic" } = "basic" :=
  ⟨by decide,
    C9_requests_basic demoState 2 { message := "hello", agent_type := "basic" } (by decide)⟩

/-- Claim C10: for an accepted submission, both the appended user message's
content and the wire request's `message` field are the raw, untrimmed input
value; the input field is cleared at submit time and is not restored by the
completion of the request, whatever its outcome. -/
theorem C10_raw_untrimmed (s : ClientState) (now : Nat) (r : TransportResult)
    (t : Nat) (h1 : ¬ jsTrim s.input = "") (h2 : s.isLoading = false) :
    (sendMessageStart s now).1.messages.getLast? =
      some { id := Nat.repr now, content := s.input, role := Role.user, timestamp := now } ∧
    (sendMessageStart s now).2 = some { message := s.input, agent_type := "basic" } ∧
    (sendMessageStart s now).1.input = "" ∧
    (sendMessageFinish (sendMessageStart s now).1 r t).input = "" := by
  refine ⟨?_, ?_, ?_, ?_⟩
  · simp [sendMessageStart, h1, h2]
  · simp [sendMessageStart, h1, h2]
  · simp [sendMessageStart, h1, h2]
  · cases r <;> simp [sendMessageStart, sendMessageFinish, h1, h2]

theorem C10_witness :
    (¬ jsTrim paddedState.input = "") ∧ paddedState.isLoading = false ∧
      ((sendMessageStart paddedState 4).1.messages.getLast? =
        some { id := Nat.repr 4, content := paddedState.input, role := Role.user, timestamp := 4 } ∧
      (sendMessageStart paddedState 4).2 =
        some { message := paddedState.input, agent_type := "basic" } ∧
      (sendMessageStart paddedState 4).1.input = "" ∧
      (sendMessageFinish (sendMessageStart paddedState 4).1 TransportResult.rejected 9).input = "") :=
  ⟨by decide, rfl,
    C10_raw_untrimmed paddedState 4 TransportResult.rejected 9 (by decide) rfl⟩

/-- Claim C3: for a completed submission whose transport call resolves with a
`success=true` body, the client appends exactly one assistant message whose
content is the body's `response` field, and returns to the idle state. -/
theorem C3_success_appends_response (s : ClientState) (tSub tDone : Nat)
    (r : ChatResponse) (h1 : ¬ jsTrim s.input = "") (h2 : s.isLoading = false)
    (_h3 : r.success = true) :
    (sendMessage s tSub (TransportResult.resolved r) tDone).messages =
      s.messages ++
        [{ id := Nat.repr tSub, content := s.input, role := Role.user, timestamp := tSub },
         { id := Nat.repr (tDone + 1), content := r.response, role := Role.assistant, timestamp := tDone }] ∧
    (sendMessage s tSub (TransportResult.resolved r) tDone).isLoading = false := by
  simp [sendMessage, sendMessageStart, sendMessageFinish, h1, h2]

theorem C3_witness :
    (¬ jsTrim demoState.input = "") ∧ demoState.isLoading = false ∧
      okEnvelope.success = true ∧
      ((sendMessage demoState 1 (TransportResult.resolved okEnvelope) 2).messages =
        demoState.messages ++
          [{ id := Nat.repr 1, content := demoState.input, role := Role.user, timestamp := 1 },
           { id := Nat.repr 3, content := okEnvelope.response, role := Role.assistant, timestamp := 2 }] ∧
      (sendMessage demoState 1 (TransportResult.resolved okEnvelope) 2).isLoading = false) :=
  ⟨by decide, rfl, rfl,
    C3_success_appends_response demoState 1 2 okEnvelope (by decide) rfl rfl⟩

/-- Claim C1 (counterexample): an endpoint response with `success=false`
that is delivered with a 2xx status resolves the transport call, so the
client appends the body's `response` field (here the empty string), not the
fixed fallback string: the `success` flag is never inspected. -/
theorem C1_counterexample :
    failEnvelope.success = false ∧
    (sendMessage demoState 0 (TransportResult.resolved failEnvelope) 1).messages.map
        (fun m => (m.role, m.content)) =
      [(Role.user, "hello"), (Role.assistant, "")] ∧
    ¬ fallbackContent = "" := by
  decide

/-- Claim C1 (amended): the client appends exactly one assistant message
with the fixed fallback string and returns to idle exactly for
transport-level failures (the promise rejects: network error or non-2xx
status); a response delivered with a 2xx status is handled as a success
regardless of its `success` field, appending the body's `response` field. -/
theorem C1_amended (s : ClientState) (tSub tDone : Nat) (r : ChatResponse)
    (h1 : ¬ jsTrim s.input = "") (h2 : s.isLoading = false) :
    ((sendMessage s tSub TransportResult.rejected tDone).messages =
      s.messages ++
        [{ id := Nat.repr tSub, content := s.input, role := Role.user, timestamp := tSub },
         { id := Nat.repr (tDone + 1), content := fallbackContent, role := Role.assistant, timestamp := tDone }] ∧
     (sendMessage s tSub TransportResult.rejected tDone).isLoading = false) ∧
    ((sendMessage s tSub (TransportResult.resolved r) tDone).messages =
      s.messages ++
        [{ id := Nat.repr tSub, content := s.input, role := Role.user, timestamp := tSub },
         { id := Nat.repr (tDone + 1), content := r.response, role := Role.assistant, timestamp := tDone }] ∧
     (sendMessage s tSub (TransportResult.resolved r) tDone).isLoading = false) := by
  simp [sendMessage, sendMessageStart, sendMessageFinish, h1, h2]

theorem C1_amended_witness :
    (¬ jsTrim demoState.input = "") ∧ demoState.isLoading = false ∧
      (((sendMessage demoState 0 TransportResult.rejected 1).messages =
        demoState.messages ++
          [{ id := Nat.repr 0, content := demoState.input, role := Role.user, timestamp := 0 },
           { id := Nat.repr 2, content := fallbackContent, role := Role.assistant, timestamp := 1 }] ∧
       (sendMessage demoState 0 TransportResult.rejected 1).isLoading = false) ∧
      ((sendMessage demoState 0 (TransportResult.resolved failEnvelope) 1).messages =
        demoState.messages ++
          [{ id := Nat.repr 0, content := demoState.input, role := Role.user, timestamp := 0 },
           { id := Nat.repr 2, content := failEnvelope.response, role := Role.assistant, timestamp := 1 }] ∧
       (sendMessage demoState 0 (TransportResult.resolved failEnvelope) 1).isLoading = false)) :=
  ⟨by decide, rfl, C1_amended demoState 0 1 failEnvelope (by decide) rfl⟩

/-- A trace with a monotone clock in which the response to the first
submission arrives in the same millisecond as the submission, and the second
submission happens in the next millisecond: `Date.now() + 1` of the response
collides with `Date.now()` of the next submission. -/
def collidingTrace : List ClientEvent :=
  [ClientEvent.edit "hi", ClientEvent.submit 5,
   ClientEvent.response (TransportResult.resolved okEnvelope) 5,
   ClientEvent.edit "yo", ClientEvent.submit 6]

/-- Claim C2 (counterexample): with clock readings 5, 5, 6 the transcript
ends up with ids `["5", "6", "6"]` — the assistant id of the first
submission and the user id of the second collide, so ids are not unique. -/
theorem C2_counterexample :
    (runClient initialState collidingTrace).messages.map Message.id = ["5", "6", "6"] ∧
    ¬ ((runClient initialState collidingTrace).messages.map Message.id).Nodup := by
  decide

/-- A trace whose clock readings are spaced far enough apart that all ids
are distinct. -/
def spacedTrace : List ClientEvent :=
  [ClientEvent.edit "hi", ClientEvent.submit 5,
   ClientEvent.response (TransportResult.resolved okEnvelope) 6,
   ClientEvent.edit "yo", ClientEvent.submit 9]

/-- Claim C2 (amended): ids are unique across the transcript and strictly
increasing in numeric value (hence sorting by numeric id reproduces creation
order) provided the clock readings are well spaced: each submit reads a
clock value at least one past every id produced so far, and each response
reads a clock value whose successor is at least that bound.  Without this
spacing hypothesis ids can collide (see the counterexample). -/
theorem C2_amended (es : List ClientEvent) (h : wellSpaced 0 es = true) :
    ((runClient initialState es).messages.map idVal).Chain' (· < ·) ∧
    ((runClient initialState es).messages.map Message.id).Nodup := by
  have h2 := runClient_ordered es initialState 0 h
    (by intro m hm; simp [initialState] at hm)
    (by simp [initialState])
  refine ⟨h2.1, ?_⟩
  have hp : ((runClient initialState es).messages.map idVal).Pairwise (· < ·) :=
    List.chain'_iff_pairwise.mp h2.1
  have hp2 : ((runClient initialState es).messages.map Message.id).Pairwise (· ≠ ·) := by
    rw [List.pairwise_map] at hp ⊢
    refine hp.imp ?_
    intro a b hlt heq
    have hv : idVal a = idVal b := by unfold idVal; rw [heq]
    omega
  exact hp2

theorem C2_amended_witness :
    (wellSpaced 0 spacedTrace = true) ∧
      (((runClient initialState spacedTrace).messages.map idVal).Chain' (· < ·) ∧
       ((runClient initialState spacedTrace).messages.map Message.id).Nodup) :=
  ⟨by decide, C2_amended spacedTrace (by decide)⟩
